import Mathlib

/-!
Verification development for the sqlite connection manager in
src/sql_manager.py.

The file shallowly embeds the Python module: the class ConnectionManager
(its constructor, the context-manager methods and the private query
method) and the module-level function execute_query, together with the
slice of the underlying engine behaviour (connection, transaction,
foreign-key pragma, statement execution) that the program exercises.
Each definition carries a comment pointing at the source lines it embeds.
-/

set_option autoImplicit false

namespace SqlManager

/-- Connection configuration. The source passes a Python dict as keyword
arguments to the engine connect call (line 22, sqlite3.connect with
double-star unpacking of self.database); the documented format of that
dict (class docstring, lines 11-12) is a mapping with the single key
database naming the database file. The configuration is carried opaquely
and handed through unmodified. -/
structure Config where
  database : String
deriving DecidableEq

/-- Kinds of Python exception that the program can raise or catch.
typeError models the builtin TypeError from a call that violates a
function signature; attributeError models the builtin AttributeError
from looking up an attribute that was never assigned; connectionError
models an engine error from a failed connect (the connection-failure
kind of the documentation); queryError models an engine error raised by
a submitted statement or by commit (syntax error, constraint violation,
integrity error). -/
inductive PyErr where
  | typeError
  | attributeError
  | connectionError
  | queryError
deriving DecidableEq

/-- A result row: an ordered sequence of column values. -/
abbrev Row := List Int

/-- A SQL statement, modelled by its text together with its engine-level
semantics, which is all the manager code can observe: the manager passes
the text through opaquely (lines 44 and 51-52). invalid marks a
statement that always fails (bad syntax or an unconditionally violated
constraint); violatesFK marks a statement that violates referential
integrity, hence fails exactly when foreign-key enforcement is active;
rows is the result set the statement produces when it succeeds (empty
for statements with no result set). -/
structure SqlStmt where
  text : String
  invalid : Bool
  violatesFK : Bool
  rows : List Row
deriving DecidableEq

/-- External circumstances of one run: whether the engine connect call
fails (modelling a bad path or locked file, the connection-failure case)
and whether the commit call raises an engine error (for example a
deferred constraint reported at commit time). -/
structure Env where
  connectFails : Bool
  commitRaises : Bool
deriving DecidableEq

/-- State of one underlying engine connection. Modelled from the
documented sqlite semantics: a connection is open until closed, has at
most one pending explicit transaction, and carries the foreign-key
enforcement setting, which defaults to off. commitRaises records the
environment fault injected at connect time. -/
structure Conn where
  isOpen : Bool
  txnActive : Bool
  fkEnforced : Bool
  commitRaises : Bool
deriving DecidableEq

/-- Engine effect of executing BEGIN on a connection: an explicit
transaction becomes pending. -/
def Conn.execBegin (c : Conn) : Conn :=
  { c with txnActive := true }

/-- Engine effect of executing PRAGMA foreign_keys = True. Modelled from
the documented sqlite semantics of this pragma: it is a no-op within a
transaction — foreign-key enforcement may only be enabled or disabled
when there is no pending BEGIN or SAVEPOINT. Outside a transaction it
turns enforcement on. -/
def Conn.execPragmaFK (c : Conn) : Conn :=
  if c.txnActive then c else { c with fkEnforced := true }

/-- Engine effect of a successful commit: the pending transaction ends. -/
def Conn.commit (c : Conn) : Conn :=
  { c with txnActive := false }

/-- Engine effect of closing the connection. -/
def Conn.close (c : Conn) : Conn :=
  { c with isOpen := false }

/-- Engine execution of a general statement on a connection: an invalid
statement raises a query error; a statement violating referential
integrity raises a query error exactly when enforcement is active on
this connection; otherwise the statement succeeds and produces its
rows. -/
def Conn.execStmt (c : Conn) (q : SqlStmt) : Except PyErr (Conn × List Row) :=
  if q.invalid then .error .queryError
  else if q.violatesFK && c.fkEnforced then .error .queryError
  else .ok (c, q.rows)

/-- Observable engine-level actions, in the order the program issues
them. Used as the trace of a run: connect records the exact
configuration handed to the engine (so that passing the configuration
through unmodified is visible in the trace). -/
inductive Action where
  | connect (cfg : Config)
  | mkCursor
  | execBEGIN
  | execPragmaFK
  | execROLLBACK
  | execQuery (q : SqlStmt)
  | commit
  | close
deriving DecidableEq

/-- The object state of a ConnectionManager instance (lines 4-45).
database and foreign_keys are assigned in the constructor (lines 15-17);
connection and hasCursor record whether the attributes self.connection
and self.cursor have been assigned yet — both are only assigned inside
enter (lines 22-23), so a fresh instance has neither. -/
structure ConnectionManager where
  database : Config
  foreign_keys : Bool
  connection : Option Conn
  hasCursor : Bool
deriving DecidableEq

/-- Arguments of a Python call to the class, split the way the Python
call protocol splits them: positional arguments after self, and the two
possible keyword arguments. -/
structure CallArgs where
  positional : List Config
  kwDatabase : Option Config
  kwFk : Option Bool
deriving DecidableEq

/-- Python call semantics of ConnectionManager(...), embedding the
constructor signature on line 15: the bare star makes database and fk
keyword-only, so any positional argument after self raises TypeError,
as does omitting the required keyword argument database; fk defaults to
False. On success the constructor (lines 16-17) assigns database and
foreign_keys and nothing else. -/
def ConnectionManager.pyCall (args : CallArgs) : Except PyErr ConnectionManager :=
  match args.positional with
  | _ :: _ => .error .typeError
  | [] =>
    match args.kwDatabase with
    | none => .error .typeError
    | some db =>
      .ok { database := db, foreign_keys := args.kwFk.getD false,
            connection := none, hasCursor := false }

/-- The instance produced by a successful keyword call
ConnectionManager(database = cfg, fk = fk); see pyCall_keyword_ok. -/
def freshCM (cfg : Config) (fk : Bool) : ConnectionManager :=
  { database := cfg, foreign_keys := fk, connection := none, hasCursor := false }

/-- Outcome of one enter call (Python dunder enter, lines 19-27): the
object state afterwards, the engine actions issued, and the exception
raised if any (none on success; the method returns self). -/
structure EnterResult where
  state : ConnectionManager
  trace : List Action
  err : Option PyErr
deriving DecidableEq

/-- Embedding of the dunder enter method, lines 19-27:
line 22 assigns self.connection from the engine connect call on the
unmodified configuration (if that call raises, nothing was assigned and
the exception propagates); line 23 assigns self.cursor; line 24 executes
BEGIN through the cursor; lines 25-26 execute the foreign-keys pragma
if and only if the foreign_keys flag is set; line 27 returns self.
Cursor creation and BEGIN on a freshly opened connection are modelled as
always succeeding. -/
def ConnectionManager.enter (self : ConnectionManager) (env : Env) : EnterResult :=
  if env.connectFails then
    { state := self, trace := [.connect self.database], err := some .connectionError }
  else
    let c0 : Conn :=
      { isOpen := true, txnActive := false, fkEnforced := false,
        commitRaises := env.commitRaises }
    let c1 := c0.execBegin
    if self.foreign_keys then
      { state := { self with connection := some c1.execPragmaFK, hasCursor := true },
        trace := [.connect self.database, .mkCursor, .execBEGIN, .execPragmaFK],
        err := none }
    else
      { state := { self with connection := some c1, hasCursor := true },
        trace := [.connect self.database, .mkCursor, .execBEGIN],
        err := none }

/-- What a Python method invocation can come to: returning a value
(here the truthiness of the returned value is what the with-statement
inspects; a method falling off its end returns None, which is falsy) or
raising an exception. -/
inductive ExitOutcome where
  | returned (handled : Bool)
  | raised (e : PyErr)
deriving DecidableEq

/-- Outcome of one exit call (Python dunder exit): final object state,
engine actions issued, whether control entered the except-AttributeError
handler, and how the method finished. -/
structure ExitResult where
  state : ConnectionManager
  trace : List Action
  exceptAttributeError : Bool
  outcome : ExitOutcome
deriving DecidableEq

set_option linter.unusedVariables false in
/-- Embedding of the dunder exit method, lines 29-39. The exc argument
models the exc_class / exc / traceback triple the protocol passes in;
the method body never reads it. Control flow of the body:
line 34 looks up self.connection and calls commit — if the attribute is
set, the lookup succeeds; commit then either succeeds or raises an
engine error, which the except clause on line 35 does not match, so
after the finally clause closes the connection (line 39) the method
returns None (falsy) or propagates the engine error respectively.
If self.connection was never assigned, line 34 raises AttributeError and
control enters the handler (line 35); there, line 36 looks up
self.cursor — also unassigned whenever self.connection is (enter assigns
connection first), so the lookup raises AttributeError and the return
True on line 37 is never reached; even in the incoherent state where a
cursor exists without the connection attribute, the ROLLBACK statement
executes but the finally clause (line 39) then raises AttributeError
looking up self.connection, superseding the return value. In every
branch with the connection attribute unset the method therefore raises
AttributeError. -/
def ConnectionManager.exit (self : ConnectionManager) (exc : Option PyErr) : ExitResult :=
  match self.connection with
  | some c =>
    if c.commitRaises then
      { state := { self with connection := some c.close },
        trace := [.commit, .close],
        exceptAttributeError := false,
        outcome := .raised .queryError }
    else
      { state := { self with connection := some c.commit.close },
        trace := [.commit, .close],
        exceptAttributeError := false,
        outcome := .returned false }
  | none =>
    if self.hasCursor then
      { state := self, trace := [.execROLLBACK],
        exceptAttributeError := true,
        outcome := .raised .attributeError }
    else
      { state := self, trace := [],
        exceptAttributeError := true,
        outcome := .raised .attributeError }

/-- Embedding of the private query method (underscore execute,
lines 41-45): line 44 looks up self.cursor (AttributeError if never
assigned) and executes the statement through it on the underlying
connection; line 45 fetches and returns all resulting rows. On engine
failure the exception propagates and the object is unchanged. -/
def ConnectionManager.runQuery (self : ConnectionManager) (q : SqlStmt) :
    List Action × Except PyErr (ConnectionManager × List Row) :=
  if self.hasCursor then
    match self.connection with
    | some c =>
      match c.execStmt q with
      | .error e => ([.execQuery q], .error e)
      | .ok (c2, rows) => ([.execQuery q], .ok ({ self with connection := some c2 }, rows))
    | none => ([], .error .attributeError)
  else ([], .error .attributeError)

/-- Result of the with-statement in execute_query as seen by its caller:
the body returned rows and the scope completed; the body raised but exit
returned a truthy value, so the exception was swallowed and the function
falls off its end returning None; or an exception propagated. -/
inductive WithOutcome where
  | ok (rows : List Row)
  | swallowedNone
  | raised (e : PyErr)
deriving DecidableEq

/-- Everything observable about one scoped session run: the outcome, the
engine-action trace, and the final object state (for stating that no
connection handle remains open). -/
structure RunResult where
  result : WithOutcome
  trace : List Action
  finalCM : ConnectionManager
deriving DecidableEq

/-- The Python with-statement protocol applied to a manager instance
with the body of execute_query (line 52: return the result of the
private query method on the single statement). Protocol, as the
language defines it: call enter; if enter raises, exit is never called
and the exception propagates. Otherwise run the body; then call exit
with the exception information (none when the body returned). If exit
raises, that exception propagates (discarding the body result); if the
body raised and exit returned a truthy value, the exception is
swallowed; if the body raised and exit returned a falsy value, the body
exception propagates after exit has completed. -/
def runSession (env : Env) (s0 : ConnectionManager) (q : SqlStmt) : RunResult :=
  let en := s0.enter env
  match en.err with
  | some e => { result := .raised e, trace := en.trace, finalCM := en.state }
  | none =>
    match en.state.runQuery q with
    | (tq, .ok (s2, rows)) =>
      let ex := s2.exit none
      match ex.outcome with
      | .raised e =>
        { result := .raised e, trace := en.trace ++ tq ++ ex.trace, finalCM := ex.state }
      | .returned _ =>
        { result := .ok rows, trace := en.trace ++ tq ++ ex.trace, finalCM := ex.state }
    | (tq, .error e) =>
      let ex := en.state.exit (some e)
      match ex.outcome with
      | .raised e2 =>
        { result := .raised e2, trace := en.trace ++ tq ++ ex.trace, finalCM := ex.state }
      | .returned true =>
        { result := .swallowedNone, trace := en.trace ++ tq ++ ex.trace, finalCM := ex.state }
      | .returned false =>
        { result := .raised e, trace := en.trace ++ tq ++ ex.trace, finalCM := ex.state }

/-- Embedding of the module-level function execute_query, lines 48-52.
Line 51 calls ConnectionManager(database): one positional argument after
self, against the keyword-only signature of the constructor (line 15) —
the Python call protocol raises TypeError there, before the
with-statement body, enter, or any engine action. If the call did
succeed, the with-statement would run the single query under the scoped
protocol. -/
def execute_query (env : Env) (database : Config) (query : SqlStmt) :
    WithOutcome × List Action :=
  match ConnectionManager.pyCall
      { positional := [database], kwDatabase := none, kwFk := none } with
  | .error e => (.raised e, [])
  | .ok cm =>
    let r := runSession env cm query
    (r.result, r.trace)

/-- Whether an optional connection handle is certainly not open: no
handle at all, or a closed one. -/
def noOpenConn : Option Conn → Bool
  | none => true
  | some c => !c.isOpen

/-- Whether an optional connection handle has a pending explicit
transaction. -/
def txnStarted : Option Conn → Bool
  | none => false
  | some c => c.txnActive

/-- Whether an optional connection handle has foreign-key enforcement
active. -/
def fkOn : Option Conn → Bool
  | none => false
  | some c => c.fkEnforced

/-- An environment in which the engine raises no fault. -/
def envOK : Env :=
  { connectFails := false, commitRaises := false }

/-- A concrete configuration for witnesses. -/
def cfgApp : Config :=
  { database := "app.db" }

/-- A fully initialized live connection: open, inside the explicit
transaction begun by enter, enforcement off, commit healthy. This is
exactly the connection state enter builds in envOK. -/
def connLive : Conn :=
  { isOpen := true, txnActive := true, fkEnforced := false, commitRaises := false }

/-- The same live connection in an environment whose commit call raises
an engine error. -/
def connLiveBadCommit : Conn :=
  { connLive with commitRaises := true }

/-- A fully initialized manager: both attributes assigned, wrapping the
given connection. -/
def cmLive (c : Conn) : ConnectionManager :=
  { database := cfgApp, foreign_keys := false, connection := some c, hasCursor := true }

/-- A statement that the engine always rejects (models a bad insert). -/
def qInvalidDemo : SqlStmt :=
  { text := "INSERT INTO missing_table VALUES (1);", invalid := true,
    violatesFK := false, rows := [] }

/-- A plain single-row select used as a demonstration query. -/
def qSelectDemo : SqlStmt :=
  { text := "SELECT 1;", invalid := false, violatesFK := false, rows := [[1]] }

/-- A statement violating referential integrity: an insert of a child
row whose foreign-key value has no matching parent row. It fails exactly
when enforcement is active. -/
def qOrphanInsert : SqlStmt :=
  { text := "INSERT INTO child VALUES (1, 99);", invalid := false,
    violatesFK := true, rows := [] }

/-- A keyword call with both arguments produces exactly the fresh
instance freshCM describes. -/
theorem pyCall_keyword_ok (cfg : Config) (fk : Bool) :
    ConnectionManager.pyCall
      { positional := [], kwDatabase := some cfg, kwFk := some fk }
      = .ok (freshCM cfg fk) := rfl

example : (runSession envOK (freshCM cfgApp false) qSelectDemo).result = .ok [[1]] := rfl

example : (runSession envOK (freshCM cfgApp false) qInvalidDemo).result
    = .raised .queryError := rfl

example : (execute_query envOK cfgApp qSelectDemo).1 = .raised .typeError := rfl

/-- C1: the claim states that for every configuration and query,
execute_query performs open, then run, under scoped acquisition and
release, and returns the rows the single query produces. Evaluated on a
concrete configuration and a concrete successful select, the code
instead raises TypeError and performs no engine action at all: line 51
calls ConnectionManager(database) with a positional argument against
the keyword-only constructor signature of line 15, so the call fails
before open could run. The outcome is the raised TypeError and the
action trace is empty. -/
theorem c1_execute_query_raises_typeerror :
    execute_query envOK cfgApp qSelectDemo
      = (WithOutcome.raised PyErr.typeError, []) := rfl

/-- C2: for every session whose open (enter) completed, the underlying
connection is closed by the time the scope exit finishes, on every exit
path — the query may succeed or raise, commit may succeed or raise, and
in every case the final object state still holds a connection handle
and that handle is closed. -/
theorem c2_connection_closed_after_scope (env : Env) (s0 : ConnectionManager)
    (q : SqlStmt) (h : (s0.enter env).err = none) :
    noOpenConn (runSession env s0 q).finalCM.connection = true
    ∧ (runSession env s0 q).finalCM.connection.isSome = true := by
  obtain ⟨cf, cr⟩ := env
  obtain ⟨db, fk, c0, hc⟩ := s0
  cases cf
  · obtain ⟨qt, qi, qv, qr⟩ := q
    cases fk <;> cases qi <;> cases qv <;> cases cr <;>
      simp [runSession, ConnectionManager.enter, ConnectionManager.runQuery,
        ConnectionManager.exit, Conn.execStmt, Conn.execBegin, Conn.execPragmaFK,
        Conn.commit, Conn.close, noOpenConn]
  · simp [ConnectionManager.enter] at h

/-- Witness for c2_connection_closed_after_scope at a concrete
environment, manager and query. -/
theorem c2_connection_closed_after_scope_witness :
    noOpenConn (runSession envOK (freshCM cfgApp false) qSelectDemo).finalCM.connection
        = true
    ∧ (runSession envOK (freshCM cfgApp false) qSelectDemo).finalCM.connection.isSome
        = true :=
  c2_connection_closed_after_scope envOK (freshCM cfgApp false) qSelectDemo rfl

/-- C3: the claim (and the comment on line 37 of the source) states that
invoking the scope exit on a session whose open never completed issues
an explicit rollback and returns True so the fault counts as handled.
Evaluated on a concrete such state (a fresh instance, neither attribute
assigned, a pending exception from the failed open), the code instead
raises AttributeError out of the exit method: the handler on line 36
looks up self.cursor, which is just as unset as self.connection, and
the finally clause on line 39 fails the same way; no ROLLBACK statement
is ever executed and True is never returned. -/
theorem c3_uninitialized_exit_raises :
    ((freshCM cfgApp false).exit (some PyErr.connectionError)).outcome
        = ExitOutcome.raised PyErr.attributeError
    ∧ ((freshCM cfgApp false).exit (some PyErr.connectionError)).trace = []
    ∧ ((freshCM cfgApp false).exit (some PyErr.connectionError)).exceptAttributeError
        = true
    ∧ ((freshCM cfgApp false).exit (some PyErr.connectionError)).outcome
        ≠ ExitOutcome.returned true := by
  refine ⟨rfl, rfl, rfl, by decide⟩

/-- C4: the except-AttributeError handler of the scope exit is entered
exactly when commit raises the attribute-missing fault, that is, when
the connection attribute was never assigned; for every fully initialized
session the exit attempts commit and never rolls back — regardless of
any exception pending from the scope body and even when commit itself
raises an engine error — while the same state stripped of its connection
attribute does enter the handler. -/
theorem c4_rollback_iff_commit_attribute_fault (s : ConnectionManager) (c : Conn)
    (exc : Option PyErr) (h : s.connection = some c) :
    (s.exit exc).exceptAttributeError = false
    ∧ (s.exit exc).trace = [Action.commit, Action.close]
    ∧ Action.execROLLBACK ∉ (s.exit exc).trace
    ∧ (ConnectionManager.exit { s with connection := none } exc).exceptAttributeError
        = true := by
  obtain ⟨io, ta, fke, cr⟩ := c
  cases cr <;> cases hs : s.hasCursor <;>
    simp [ConnectionManager.exit, h, hs, Conn.commit, Conn.close]

/-- Witness for c4_rollback_iff_commit_attribute_fault at a fully
initialized manager whose commit raises an engine error, with an
exception pending from the scope body. -/
theorem c4_rollback_iff_commit_attribute_fault_witness :
    ((cmLive connLiveBadCommit).exit (some PyErr.queryError)).exceptAttributeError
        = false
    ∧ ((cmLive connLiveBadCommit).exit (some PyErr.queryError)).trace
        = [Action.commit, Action.close]
    ∧ Action.execROLLBACK ∉ ((cmLive connLiveBadCommit).exit (some PyErr.queryError)).trace
    ∧ (ConnectionManager.exit { cmLive connLiveBadCommit with connection := none }
        (some PyErr.queryError)).exceptAttributeError = true :=
  c4_rollback_iff_commit_attribute_fault (cmLive connLiveBadCommit)
    connLiveBadCommit (some PyErr.queryError) rfl

/-- C5: whenever the session holds an underlying connection, the scope
exit closes it as its final step in all cases — commit succeeding or
commit raising an engine error (the two cases in which an underlying
connection exists; in the remaining branch of the source the connection
attribute is unset, so there is no underlying connection, and the
finally clause still runs but its own attribute lookup raises). The last
action of the exit trace is the close, and the final state holds a
connection handle that is no longer open. -/
theorem c5_close_is_final_step (s : ConnectionManager) (c : Conn)
    (exc : Option PyErr) (h : s.connection = some c) :
    (s.exit exc).trace.getLast? = some Action.close
    ∧ noOpenConn (s.exit exc).state.connection = true
    ∧ (s.exit exc).state.connection.isSome = true := by
  obtain ⟨io, ta, fke, cr⟩ := c
  cases cr <;>
    simp [ConnectionManager.exit, h, Conn.commit, Conn.close, noOpenConn,
      List.getLast?]

/-- Witness for c5_close_is_final_step at a fully initialized manager
with a healthy commit and no pending exception. -/
theorem c5_close_is_final_step_witness :
    ((cmLive connLive).exit none).trace.getLast? = some Action.close
    ∧ noOpenConn ((cmLive connLive).exit none).state.connection = true
    ∧ ((cmLive connLive).exit none).state.connection.isSome = true :=
  c5_close_is_final_step (cmLive connLive) connLive none rfl

/-- C6: the claim states that enabling the integrity flag makes a
statement violating referential integrity fail, while with the flag
disabled the same statement succeeds. Evaluated on a concrete session
and the concrete orphan insert, the violating statement succeeds in
BOTH sessions: enter executes the pragma only after BEGIN (lines 24-26),
and inside a pending transaction the pragma is a no-op under the
documented sqlite semantics, so enforcement is still off when the
statement runs. The conjuncts record that the run with the flag enabled
succeeds (refuting the claim), that the run with the flag disabled
succeeds (the half that holds), that after enter with the flag enabled
the connection still has enforcement off while its transaction is
pending, and that the pragma statement was nevertheless executed. -/
theorem c6_fk_pragma_noop_in_txn :
    (runSession envOK (freshCM cfgApp true) qOrphanInsert).result = WithOutcome.ok []
    ∧ (runSession envOK (freshCM cfgApp false) qOrphanInsert).result = WithOutcome.ok []
    ∧ fkOn ((freshCM cfgApp true).enter envOK).state.connection = false
    ∧ txnStarted ((freshCM cfgApp true).enter envOK).state.connection = true
    ∧ Action.execPragmaFK ∈ ((freshCM cfgApp true).enter envOK).trace := by
  refine ⟨rfl, rfl, rfl, rfl, by decide⟩

/-- C7: enter opens a connection on the configuration passed through
unmodified, then explicitly starts a transaction with BEGIN, and
executes the referential-integrity pragma exactly when the integrity
flag is set: the method succeeds, its action trace is connect on the
exact stored configuration, cursor creation, BEGIN, and then the pragma
exactly when the flag is set, and afterwards the connection has a
pending transaction. -/
theorem c7_enter_trace (env : Env) (s0 : ConnectionManager)
    (h : env.connectFails = false) :
    (s0.enter env).err = none
    ∧ (s0.enter env).trace
        = [Action.connect s0.database, Action.mkCursor, Action.execBEGIN]
          ++ (if s0.foreign_keys then [Action.execPragmaFK] else [])
    ∧ (Action.execPragmaFK ∈ (s0.enter env).trace ↔ s0.foreign_keys = true)
    ∧ txnStarted (s0.enter env).state.connection = true := by
  cases hfk : s0.foreign_keys <;>
    simp [ConnectionManager.enter, h, hfk, txnStarted, Conn.execBegin,
      Conn.execPragmaFK]

/-- Witness for c7_enter_trace at a concrete healthy environment and a
fresh instance with the integrity flag set. -/
theorem c7_enter_trace_witness :
    ((freshCM cfgApp true).enter envOK).err = none
    ∧ ((freshCM cfgApp true).enter envOK).trace
        = [Action.connect (freshCM cfgApp true).database, Action.mkCursor,
            Action.execBEGIN]
          ++ (if (freshCM cfgApp true).foreign_keys then [Action.execPragmaFK] else [])
    ∧ (Action.execPragmaFK ∈ ((freshCM cfgApp true).enter envOK).trace
        ↔ (freshCM cfgApp true).foreign_keys = true)
    ∧ txnStarted ((freshCM cfgApp true).enter envOK).state.connection = true :=
  c7_enter_trace envOK (freshCM cfgApp true) rfl

/-- C8 counterexample: the claim states that the narrow
commit-attribute-missing fault is the one swallowed case, reported to
the caller as handled. Evaluated on a concrete session state in exactly
that situation — the connection attribute never assigned, an exception
pending from the scope — the exit method does not swallow anything: it
raises AttributeError itself and never returns True. -/
theorem c8_attribute_fault_not_swallowed :
    ((freshCM cfgApp false).exit (some PyErr.queryError)).outcome
        = ExitOutcome.raised PyErr.attributeError
    ∧ ((freshCM cfgApp false).exit (some PyErr.queryError)).outcome
        ≠ ExitOutcome.returned true := by
  refine ⟨rfl, by decide⟩

/-- C8 as amended: every query error raised inside the scope and every
connection error from a failed open is surfaced to the direct caller of
the scoped run, and when the scope was entered the release step has run
to completion first — the trace ends with the close and no open handle
remains; no case is swallowed (the session never returns None through a
swallowed exception), not even the commit-attribute-missing fault,
which raises instead of reporting handled
(c8_attribute_fault_not_swallowed). -/
theorem c8_errors_propagate_after_release (env : Env) (cfg : Config) (fk : Bool)
    (q : SqlStmt) (hq : q.invalid = true) :
    (env.connectFails = true →
      (runSession env (freshCM cfg fk) q).result
          = WithOutcome.raised PyErr.connectionError)
    ∧ (env.connectFails = false →
      (runSession env (freshCM cfg fk) q).result
          = WithOutcome.raised PyErr.queryError
      ∧ (runSession env (freshCM cfg fk) q).trace.getLast? = some Action.close
      ∧ noOpenConn (runSession env (freshCM cfg fk) q).finalCM.connection = true)
    ∧ (runSession env (freshCM cfg fk) q).result ≠ WithOutcome.swallowedNone := by
  obtain ⟨cf, cr⟩ := env
  obtain ⟨qt, qi, qv, qr⟩ := q
  simp only at hq
  subst hq
  cases cf <;> cases fk <;> cases cr <;> cases qv <;>
    simp [runSession, ConnectionManager.enter, ConnectionManager.runQuery,
      ConnectionManager.exit, Conn.execStmt, Conn.execBegin, Conn.execPragmaFK,
      Conn.commit, Conn.close, noOpenConn, freshCM, List.getLast?]

/-- Witness for c8_errors_propagate_after_release at a concrete healthy
environment and a concrete always-failing statement. -/
theorem c8_errors_propagate_after_release_witness :
    (envOK.connectFails = true →
      (runSession envOK (freshCM cfgApp false) qInvalidDemo).result
          = WithOutcome.raised PyErr.connectionError)
    ∧ (envOK.connectFails = false →
      (runSession envOK (freshCM cfgApp false) qInvalidDemo).result
          = WithOutcome.raised PyErr.queryError
      ∧ (runSession envOK (freshCM cfgApp false) qInvalidDemo).trace.getLast?
          = some Action.close
      ∧ noOpenConn (runSession envOK (freshCM cfgApp false) qInvalidDemo).finalCM.connection
          = true)
    ∧ (runSession envOK (freshCM cfgApp false) qInvalidDemo).result
        ≠ WithOutcome.swallowedNone :=
  c8_errors_propagate_after_release envOK cfgApp false qInvalidDemo rfl

/-- C9: under the context-manager protocol, exit only ever runs on a
state produced by a completed enter, and every such state has both the
connection and the cursor attribute assigned; consequently commit never
raises the attribute-missing fault in a protocol run — no ROLLBACK is
ever executed, no exception is swallowed into a None return, and no
AttributeError surfaces. -/
theorem c9_rollback_unreachable_under_protocol (env : Env)
    (s0 : ConnectionManager) (q : SqlStmt) (h : (s0.enter env).err = none) :
    (s0.enter env).state.connection.isSome = true
    ∧ (s0.enter env).state.hasCursor = true
    ∧ Action.execROLLBACK ∉ (runSession env s0 q).trace
    ∧ (runSession env s0 q).result ≠ WithOutcome.swallowedNone
    ∧ (runSession env s0 q).result ≠ WithOutcome.raised PyErr.attributeError := by
  obtain ⟨cf, cr⟩ := env
  obtain ⟨db, fk, c0, hc⟩ := s0
  cases cf
  · obtain ⟨qt, qi, qv, qr⟩ := q
    cases fk <;> cases qi <;> cases qv <;> cases cr <;>
      simp [runSession, ConnectionManager.enter, ConnectionManager.runQuery,
        ConnectionManager.exit, Conn.execStmt, Conn.execBegin, Conn.execPragmaFK,
        Conn.commit, Conn.close]
  · simp [ConnectionManager.enter] at h

/-- Witness for c9_rollback_unreachable_under_protocol at a concrete
healthy environment, a fresh instance with the integrity flag set, and
a concrete failing statement. -/
theorem c9_rollback_unreachable_under_protocol_witness :
    ((freshCM cfgApp true).enter envOK).state.connection.isSome = true
    ∧ ((freshCM cfgApp true).enter envOK).state.hasCursor = true
    ∧ Action.execROLLBACK ∉ (runSession envOK (freshCM cfgApp true) qInvalidDemo).trace
    ∧ (runSession envOK (freshCM cfgApp true) qInvalidDemo).result
        ≠ WithOutcome.swallowedNone
    ∧ (runSession envOK (freshCM cfgApp true) qInvalidDemo).result
        ≠ WithOutcome.raised PyErr.attributeError :=
  c9_rollback_unreachable_under_protocol envOK (freshCM cfgApp true) qInvalidDemo rfl

/-- C10 counterexample: the claim states that the session created by
execute_query has the integrity flag at its default False, the wrapper
forwarding no foreign-keys setting. Evaluated at a concrete
configuration and query, execute_query creates no session at all: the
constructor call raises TypeError and the trace is empty — not even a
connect is issued, so there is no created session whose flag could be
False. -/
theorem c10_no_session_created :
    execute_query { connectFails := false, commitRaises := false }
      { database := "users.db" }
      { text := "SELECT * FROM users;", invalid := false, violatesFK := false,
        rows := [[1], [2]] }
      = (WithOutcome.raised PyErr.typeError, []) := rfl

/-- C10 as amended: the enforcement pragma is indeed never executed
through the public entry point, but not because a session with the flag
at its default is created — for every environment, configuration and
query, execute_query raises TypeError at the constructor call and its
engine-action trace is empty, so no pragma and no connect ever runs and
no session exists. -/
theorem c10_no_pragma_via_entry_point (env : Env) (cfg : Config) (q : SqlStmt) :
    (execute_query env cfg q).1 = WithOutcome.raised PyErr.typeError
    ∧ (execute_query env cfg q).2 = []
    ∧ Action.execPragmaFK ∉ (execute_query env cfg q).2
    ∧ Action.connect cfg ∉ (execute_query env cfg q).2 := by
  refine ⟨rfl, rfl, ?_, ?_⟩ <;>
    simp [execute_query, ConnectionManager.pyCall]

end SqlManager
